import Mathlib

/-!
Verification of the quiz generation / answer evaluation client
(`services/geminiService.ts`, current revision with two-model fallback and
client-assigned marks).

The service is shallowly embedded: the network (the generative-AI SDK) is an
oracle parameter, a call's outcome is a `CallResult` (the SDK call threw, or
returned text whose trim + `JSON.parse` step is itself modelled as a
`ParseOutcome`), and parsed JSON bodies are values of an inductive `Json`
type.  JavaScript truthiness, `||` defaulting, and the TypeError raised by a
property access on `null` are modelled explicitly.  Numeric JSON literals are
modelled as integers (the values the claims touch are integral).
-/

namespace SparkGo

/-- A JSON value as produced by `JSON.parse`.  Objects are association lists
with distinct keys (what `JSON.parse` yields: a duplicate key keeps the last
binding only, so parsed objects never carry duplicates). -/
inductive Json where
  | null : Json
  | bool (b : Bool) : Json
  | num (n : Int) : Json
  | str (s : String) : Json
  | arr (elems : List Json) : Json
  | obj (fields : List (String × Json)) : Json

/-- Field lookup on a JSON value: the bound value for a key of an object,
`none` (JavaScript `undefined`) for a missing key or a non-object. -/
def Json.getField : Json → String → Option Json
  | .obj fields, k => (fields.find? (fun f => f.1 == k)).map (fun f => f.2)
  | _, _ => none

/-- JavaScript truthiness of a JSON value (`NaN` does not arise: the only
numbers here come from parsed JSON literals). -/
def jsTruthy : Json → Bool
  | .null => false
  | .bool b => b
  | .num n => n != 0
  | .str s => s != ""
  | .arr _ => true
  | .obj _ => true

/-- JavaScript property access `v.k`: `undefined` (`none`) for a missing key,
and a thrown TypeError when `v` is `null` (message as V8 prints it). -/
def jsGet : Json → String → Except String (Option Json)
  | .null, k => .error ("Cannot read properties of null (reading '" ++ k ++ "')")
  | v, k => .ok (v.getField k)

/-- JavaScript `v.k || d`: the field's value when present and truthy, the
default `d` otherwise. -/
def jsOr (v : Option Json) (d : Json) : Json :=
  match v with
  | some j => if jsTruthy j then j else d
  | none => d

/-- The two environment-variable lookup paths for the credential:
`process.env.API_KEY` and `import.meta.env.VITE_API_KEY`
(`none` = variable not set). -/
structure EnvVars where
  apiKey : Option String
  viteApiKey : Option String

/-- Truthiness of an (optional) environment variable: set and non-empty. -/
def envTruthy (v : Option String) : Bool := v.getD "" != ""

/-- The message of the configuration error thrown when no credential is
available (source: `getApiKey`). -/
def apiKeyMissingMsg : String :=
  "API Key is missing. Please set the 'API_KEY' (or 'VITE_API_KEY') environment variable in your Netlify Site Settings."

/-- `getApiKey` from the source: `process.env.API_KEY` when truthy, else
`import.meta.env.VITE_API_KEY` when truthy, else a thrown configuration
error. -/
def getApiKey (env : EnvVars) : Except String String :=
  if envTruthy env.apiKey then .ok (env.apiKey.getD "")
  else if envTruthy env.viteApiKey then .ok (env.viteApiKey.getD "")
  else .error apiKeyMissingMsg

/-- `getMarksForType` from the source: the switch over the question type,
written as the equivalent chain of equality tests in source order, with the
switch's `default: return 1`. -/
def getMarksForType (type : String) : Nat :=
  if type = "MCQ" then 1
  else if type = "FillBlanks" then 1
  else if type = "VeryShort" then 2
  else if type = "Short" then 3
  else if type = "CaseBased" then 4
  else if type = "ExtractBased" then 4
  else if type = "Long" then 5
  else 1

/-- The fixed enumeration of question kinds (`QuestionType` in `types.ts`). -/
def questionKinds : List String :=
  ["MCQ", "FillBlanks", "VeryShort", "Short", "Long", "CaseBased", "ExtractBased"]

/-- One mapped question record as built by `processResponse`'s `.map`
callback: `type` and `marks` are set by the client, every other field is
taken from the raw element (`question` verbatim, possibly `undefined`; the
rest with a `|| default`). -/
structure QuizQuestion where
  type : String
  question : Option Json
  options : Json
  correctAnswer : Json
  modelAnswer : Json
  context : Json
  explanation : Json
  marks : Nat

/-- The `.map` callback of `processResponse` applied to one raw element `q`
of the questions array.  A `null` element makes the first property access
throw a TypeError (any non-null element never throws). -/
def mapQuestion (questionType : String) (q : Json) : Except String QuizQuestion := do
  let question ← jsGet q "question"
  let options ← jsGet q "options"
  let correctAnswer ← jsGet q "correctAnswer"
  let modelAnswer ← jsGet q "modelAnswer"
  let context ← jsGet q "context"
  let explanation ← jsGet q "explanation"
  pure {
    type := questionType
    question := question
    options := jsOr options (Json.arr [])
    correctAnswer := jsOr correctAnswer (Json.str "")
    modelAnswer := jsOr modelAnswer (Json.str "")
    context := jsOr context (Json.str "")
    explanation := jsOr explanation (Json.str "")
    marks := getMarksForType questionType }

/-- Outcome of `JSON.parse(response.text.trim())` on a returned response:
either the parse threw (`malformed`, with the SyntaxError's message) or it
produced a JSON body. -/
inductive ParseOutcome where
  | malformed (msg : String) : ParseOutcome
  | parsed (body : Json) : ParseOutcome

/-- Outcome of one `ai.models.generateContent` call: the call threw (with
the thrown error's `.message`, `none` when the thrown value has none), or it
returned and the response text's parse outcome is recorded. -/
inductive CallResult where
  | failure (msg : Option String) : CallResult
  | success (outcome : ParseOutcome) : CallResult

/-- Message of the shape-validation error (source: `processResponse`). -/
def invalidFormatMsg : String :=
  "Invalid response format from AI. Expected a 'questions' array."

/-- `processResponse` from the source.  The guard
`!parsed.questions || !Array.isArray(parsed.questions)` succeeds exactly when
the `questions` field is an array (every array is truthy), so the match below
is that guard; accessing `.questions` on a body that parsed to `null` throws
a TypeError before the guard runs, which `jsGet` reproduces. -/
def processResponse (questionType : String) : ParseOutcome → Except String (List QuizQuestion)
  | .malformed msg => .error msg
  | .parsed parsed => do
    let qfield ← jsGet parsed "questions"
    match qfield with
    | some (.arr elems) => elems.mapM (mapQuestion questionType)
    | _ => .error invalidFormatMsg

/-- One generation attempt as it sits inside `try`: the SDK call followed by
`processResponse` on its response text.  The error is the thrown error's
message (`processResponse`'s errors always carry one). -/
def tryAttempt (questionType : String) : CallResult → Except (Option String) (List QuizQuestion)
  | .failure msg => .error msg
  | .success outcome => (processResponse questionType outcome).mapError some

/-- The primary model identifier used by `generateQuiz` and by
`evaluateAnswer`. -/
def primaryModel : String := "gemini-3-pro-preview"

/-- The secondary (fallback) model identifier of `generateQuiz`. -/
def secondaryModel : String := "gemini-2.5-flash"

/-- `retryError.message || error.message || "Unknown error"`: the secondary
attempt's message when present and non-empty, else the primary's, else the
fixed fallback text. -/
def jsMsgOr (retryMsg primaryMsg : Option String) : String :=
  if retryMsg.getD "" != "" then retryMsg.getD ""
  else if primaryMsg.getD "" != "" then primaryMsg.getD ""
  else "Unknown error"

/-- The message of the error thrown when both attempts failed. -/
def genFailureMsg (retryMsg primaryMsg : Option String) : String :=
  "AI Generation Failed: " ++ jsMsgOr retryMsg primaryMsg ++ ". Please check your API Key and Quota."

/-- `examContext ? "${examContext}" : "Standard Board Exam"`. -/
def contextLabel (examContext : String) : String :=
  if examContext != "" then "\"" ++ examContext ++ "\"" else "Standard Board Exam"

/-- The `typeInstructions` if/else chain of `generateQuiz`, template
literals written out with escaped newlines. -/
def typeInstructions (questionType examContext : String) : String :=
  if questionType = "MCQ" then
    "Generate Multiple Choice Questions suitable for " ++ contextLabel examContext ++ ". Provide 4 options and 1 correct answer."
  else if questionType = "FillBlanks" then
    "Generate Fill in the Blank questions suitable for " ++ contextLabel examContext ++ ". The question text must contain \"______\" where the word goes. 'correctAnswer' must be the missing word(s). Do not provide options."
  else if ["Short", "VeryShort", "Long", "Brief"].contains questionType then
    "Generate " ++ questionType ++ " Answer Type Questions. \n    CRITICAL: You are an expert Examiner for " ++ contextLabel examContext ++ ". \n    - You MUST provide a 'modelAnswer' field.\n    - The 'modelAnswer' must be a \"Topper's Answer\" that scores full marks in " ++ contextLabel examContext ++ ".\n    - Analyze strictly based on " ++ contextLabel examContext ++ " marking schemes: use point-wise answers, highlight keywords, and structure the answer exactly how a student needs to write it.\n    - Do not just copy the PDF text. Synthesize a perfect exam answer.\n    - 'options' and 'correctAnswer' fields should be empty/null."
  else if ["CaseBased", "ExtractBased"].contains questionType then
    "Generate " ++ questionType ++ " questions suitable for " ++ contextLabel examContext ++ ".\n     - Select a relevant paragraph or case from the text and put it in the 'context' field.\n     - Ask a question based on that context.\n     - Provide a 'modelAnswer' that yields full marks based on the context and " ++ contextLabel examContext ++ " standards."
  else ""

/-- The part of `generateQuiz`'s prompt template that precedes the embedded
source text. -/
def promptBeforeText (numQuestions : Nat) (difficulty questionType examContext : String) : String :=
  "\n  Role: You are an expert Exam Setter and Examiner for " ++
  (if examContext != "" then examContext else "General Education") ++
  ".\n  Task: Create a quiz/test based on the provided text.\n  \n  Configuration:\n  - Question Type: " ++
  questionType ++
  "\n  - Quantity: " ++ toString numQuestions ++ " questions\n  - Difficulty: " ++
  difficulty ++
  "\n  - Exam Context/Focus: " ++
  (if examContext != "" then examContext else "Standard Academic Standard") ++
  "\n  \n  Instructions:\n  " ++
  typeInstructions questionType examContext ++
  "\n  \n  General Rules:\n  - Ensure questions are relevant to the provided text.\n  - Explanation field should clarify the concept for revision.\n\n  Text Content:\n  ---\n  "

/-- The part of the prompt template that follows the embedded source text. -/
def promptAfterText : String := "\n  ---\n  "

/-- `pdfText.substring(0, 30000)`: the first `n` characters (all of the
string when it is shorter). -/
def jsSubstring (s : String) (n : Nat) : String := String.mk (s.data.take n)

/-- The prompt of `generateQuiz`: the template with
`pdfText.substring(0, 30000)` spliced between the fixed surrounding parts. -/
def buildPrompt (pdfText : String) (numQuestions : Nat)
    (difficulty questionType examContext : String) : String :=
  promptBeforeText numQuestions difficulty questionType examContext ++
  jsSubstring pdfText 30000 ++ promptAfterText

/-- `generateQuiz` from the source, the network as an oracle from (model
identifier, prompt) to a call outcome.  The credential is fetched first
(throwing before any call when absent); the primary model is tried, any
throw inside the `try` (SDK failure, parse failure, or `processResponse`'s
own errors) falls back to one secondary attempt at the identical prompt;
a second failure throws the combined generation error. -/
def generateQuiz (env : EnvVars) (pdfText : String) (numQuestions : Nat)
    (difficulty questionType examContext : String)
    (net : String → String → CallResult) : Except String (List QuizQuestion) :=
  match getApiKey env with
  | .error msg => .error msg
  | .ok _ =>
    let prompt := buildPrompt pdfText numQuestions difficulty questionType examContext
    match tryAttempt questionType (net primaryModel prompt) with
    | .ok qs => .ok qs
    | .error primaryErr =>
      match tryAttempt questionType (net secondaryModel prompt) with
      | .ok qs => .ok qs
      | .error retryErr => .error (genFailureMsg retryErr primaryErr)

/-- The request `evaluateAnswer` sends: one multimodal call to a single
model (the response schema and MIME type are fixed constants of the
source and carry no information beyond the operation's identity). -/
structure EvalRequest where
  model : String
  mimeType : String
  imageData : String
  prompt : String

/-- The prompt template of `evaluateAnswer`. -/
def evalPromptText (question modelAnswer : String) (maxMarks : Int) : String :=
  "\n    Role: Strict CBSE Board Examiner.\n    Task: Grade the student's handwritten answer (image) against the reference Topper Answer.\n    \n    Question: " ++
  question ++
  "\n    Reference Topper Answer: " ++
  modelAnswer ++
  "\n    Maximum Marks: " ++ toString maxMarks ++
  "\n\n    Instructions:\n    1. Read the handwriting in the image.\n    2. Compare it strictly with the Topper Answer.\n    3. Award marks based on CBSE step-marking (keywords, definition, structure).\n    4. List where marks were cut (mistakes).\n    5. Provide brief advice.\n    "

/-- The single request `evaluateAnswer` builds from its arguments. -/
def evalRequest (question modelAnswer imageBase64 mimeType : String)
    (maxMarks : Int) : EvalRequest :=
  { model := primaryModel
    mimeType := mimeType
    imageData := imageBase64
    prompt := evalPromptText question modelAnswer maxMarks }

/-- `Evaluation failed: ${error.message || "Please check your API Key."}`. -/
def evalFailureMsg (msg : Option String) : String :=
  "Evaluation failed: " ++ (if msg.getD "" != "" then msg.getD "" else "Please check your API Key.")

/-- `evaluateAnswer` from the source.  After the credential check it sends
one request (no fallback tier); a thrown SDK error or a JSON parse failure
is caught and rethrown as the evaluation error; a body that parses is
returned as-is (`JSON.parse(jsonString) as EvaluationResult` is a
compile-time cast: no runtime field validation occurs). -/
def evaluateAnswer (env : EnvVars) (question modelAnswer imageBase64 mimeType : String)
    (maxMarks : Int) (net : EvalRequest → CallResult) : Except String Json :=
  match getApiKey env with
  | .error msg => .error msg
  | .ok _ =>
    match net (evalRequest question modelAnswer imageBase64 mimeType maxMarks) with
    | .failure msg => .error (evalFailureMsg msg)
    | .success (.malformed msg) => .error (evalFailureMsg (some msg))
    | .success (.parsed body) => .ok body

/-- Whether a parsed body carries all four fields the evaluation response
schema marks as required (`score`, `maxMarks`, `mistakes`, `feedback`). -/
def hasRequiredEvalFields (body : Json) : Bool :=
  (body.getField "score").isSome && (body.getField "maxMarks").isSome &&
  (body.getField "mistakes").isSome && (body.getField "feedback").isSome

/-- Whether a parsed generation body has a `questions` field holding an
array (the shape `processResponse` accepts). -/
def questionsIsArray (body : Json) : Bool :=
  match body.getField "questions" with
  | some (.arr _) => true
  | _ => false

/-- Total form of `mapQuestion` on non-null elements (property access on a
non-null value never throws). -/
def mapQuestionTotal (questionType : String) (q : Json) : QuizQuestion :=
  { type := questionType
    question := q.getField "question"
    options := jsOr (q.getField "options") (Json.arr [])
    correctAnswer := jsOr (q.getField "correctAnswer") (Json.str "")
    modelAnswer := jsOr (q.getField "modelAnswer") (Json.str "")
    context := jsOr (q.getField "context") (Json.str "")
    explanation := jsOr (q.getField "explanation") (Json.str "")
    marks := getMarksForType questionType }

/-- Concrete environment with a credential, for witnesses. -/
def wEnv : EnvVars := { apiKey := some "key", viteApiKey := none }

/-- A response body with one question element whose echoed `type` disagrees
with the requested kind. -/
def wBodyOneEcho : Json :=
  Json.obj [("questions", Json.arr
    [Json.obj [("type", Json.str "Long"), ("question", Json.str "Q")]])]

/-- Oracle answering every call with `wBodyOneEcho`. -/
def wNetEcho : String → String → CallResult :=
  fun _ _ => CallResult.success (ParseOutcome.parsed wBodyOneEcho)

/-- The mapped record `processResponse` builds from `wBodyOneEcho`'s element
when the requested kind is MCQ. -/
def wQuestionOut : QuizQuestion :=
  { type := "MCQ", question := some (Json.str "Q"), options := Json.arr [],
    correctAnswer := Json.str "", modelAnswer := Json.str "", context := Json.str "",
    explanation := Json.str "", marks := 1 }

/-- Oracle whose primary call throws and whose secondary call succeeds. -/
def wNetPrimaryFails : String → String → CallResult := fun model _ =>
  if model = primaryModel then CallResult.failure (some "boom")
  else CallResult.success (ParseOutcome.parsed wBodyOneEcho)

/-- Oracle whose calls both throw, with distinct messages. -/
def wNetBothFail : String → String → CallResult := fun model _ =>
  if model = primaryModel then CallResult.failure (some "primary down")
  else CallResult.failure (some "secondary down")

/-- Oracle answering every call with a parsed body that has no `questions`
field. -/
def wNetNoQuestions : String → String → CallResult :=
  fun _ _ => CallResult.success (ParseOutcome.parsed (Json.obj []))

/-- Oracle answering every call with a `questions` array whose only element
is JSON `null`. -/
def wNetNullElem : String → String → CallResult :=
  fun _ _ => CallResult.success (ParseOutcome.parsed
    (Json.obj [("questions", Json.arr [Json.null])]))

/-- Oracle answering every call with an empty `questions` array. -/
def wNetEmptyQuestions : String → String → CallResult :=
  fun _ _ => CallResult.success (ParseOutcome.parsed
    (Json.obj [("questions", Json.arr [])]))

/-- An evaluation body missing the required `feedback` field. -/
def wEvalBodyMissing : Json :=
  Json.obj [("score", Json.num 3), ("maxMarks", Json.num 5), ("mistakes", Json.arr [])]

/-- An evaluation body reporting `score` 7 against `maxMarks` 5. -/
def wEvalBodyOver : Json :=
  Json.obj [("score", Json.num 7), ("maxMarks", Json.num 5),
    ("mistakes", Json.arr []), ("feedback", Json.str "ok")]

theorem except_bind_ok {ε α β : Type} (a : α) (g : α → Except ε β) :
    (Except.ok a >>= g) = g a := rfl

theorem except_bind_error {ε α β : Type} (e : ε) (g : α → Except ε β) :
    ((Except.error e : Except ε α) >>= g) = Except.error e := rfl

theorem except_pure {ε α : Type} (a : α) : (pure a : Except ε α) = Except.ok a := rfl

theorem jsGet_ne_null {j : Json} (h : j ≠ Json.null) (k : String) :
    jsGet j k = Except.ok (j.getField k) := by
  cases j with
  | null => exact absurd rfl h
  | bool b => rfl
  | num n => rfl
  | str s => rfl
  | arr xs => rfl
  | obj fs => rfl

theorem mapQuestion_ne_null {questionType : String} {j : Json} (h : j ≠ Json.null) :
    mapQuestion questionType j = Except.ok (mapQuestionTotal questionType j) := by
  simp only [mapQuestion, jsGet_ne_null h, except_bind_ok, except_pure, mapQuestionTotal]

theorem mapQuestion_null {questionType : String} :
    mapQuestion questionType Json.null =
      Except.error "Cannot read properties of null (reading 'question')" := rfl

theorem mapQuestion_ok_fields {questionType : String} {j : Json} {q : QuizQuestion}
    (h : mapQuestion questionType j = Except.ok q) :
    q.type = questionType ∧ q.marks = getMarksForType questionType := by
  by_cases hj : j = Json.null
  · subst hj; rw [mapQuestion_null] at h; cases h
  · rw [mapQuestion_ne_null hj] at h
    cases h
    exact ⟨rfl, rfl⟩

theorem mapM_eq_mapM' {ε α β : Type} (f : α → Except ε β) (xs : List α) :
    xs.mapM f = List.mapM' f xs := (List.mapM'_eq_mapM f xs).symm

theorem mapM'_ok_mem {ε : Type} {f : Json → Except ε QuizQuestion} {P : QuizQuestion → Prop}
    (hf : ∀ j q, f j = Except.ok q → P q) :
    ∀ (xs : List Json) (ys : List QuizQuestion),
      List.mapM' f xs = Except.ok ys → ∀ y ∈ ys, P y := by
  intro xs
  induction xs with
  | nil =>
    intro ys h y hy
    simp only [List.mapM'] at h
    rw [except_pure] at h
    cases h
    cases hy
  | cons a as ih =>
    intro ys h y hy
    simp only [List.mapM'] at h
    cases ha : f a with
    | error e => rw [ha, except_bind_error] at h; cases h
    | ok b =>
      rw [ha, except_bind_ok] at h
      cases has : List.mapM' f as with
      | error e => rw [has, except_bind_error] at h; cases h
      | ok bs =>
        rw [has, except_bind_ok, except_pure] at h
        cases h
        cases hy with
        | head => exact hf a _ ha
        | tail _ hy2 => exact ih bs has y hy2

theorem mapM'_map_of_ne_null {questionType : String} :
    ∀ (xs : List Json), (∀ x ∈ xs, x ≠ Json.null) →
      List.mapM' (mapQuestion questionType) xs =
        Except.ok (xs.map (mapQuestionTotal questionType)) := by
  intro xs
  induction xs with
  | nil => intro _; rfl
  | cons a as ih =>
    intro hnn
    simp only [List.mapM']
    rw [mapQuestion_ne_null (hnn a (List.mem_cons_self a as)), except_bind_ok,
      ih (fun x hx => hnn x (List.mem_cons_of_mem a hx)), except_bind_ok, except_pure,
      List.map_cons]

theorem getField_some_imp_obj {body : Json} {k : String} {v : Json}
    (h : body.getField k = some v) : body ≠ Json.null := by
  intro hc
  subst hc
  simp [Json.getField] at h

theorem processResponse_questions_arr {questionType : String} {body : Json} {xs : List Json}
    (h : body.getField "questions" = some (Json.arr xs)) :
    processResponse questionType (ParseOutcome.parsed body) =
      xs.mapM (mapQuestion questionType) := by
  simp only [processResponse]
  rw [jsGet_ne_null (getField_some_imp_obj h), except_bind_ok, h]

theorem processResponse_invalid {questionType : String} {body : Json}
    (hb : body ≠ Json.null) (hq : questionsIsArray body = false) :
    processResponse questionType (ParseOutcome.parsed body) =
      Except.error invalidFormatMsg := by
  simp only [processResponse]
  rw [jsGet_ne_null hb, except_bind_ok]
  unfold questionsIsArray at hq
  cases hv : body.getField "questions" with
  | none => rfl
  | some v =>
    rw [hv] at hq
    cases v with
    | null => rfl
    | bool b => rfl
    | num n => rfl
    | str s => rfl
    | arr elems => simp at hq
    | obj fs => rfl

theorem processResponse_null {questionType : String} :
    processResponse questionType (ParseOutcome.parsed Json.null) =
      Except.error "Cannot read properties of null (reading 'questions')" := rfl

theorem processResponse_ok_mem {questionType : String} {out : ParseOutcome}
    {qs : List QuizQuestion} (h : processResponse questionType out = Except.ok qs) :
    ∀ q ∈ qs, q.type = questionType ∧ q.marks = getMarksForType questionType := by
  cases out with
  | malformed m => simp only [processResponse] at h; cases h
  | parsed body =>
    by_cases hb : body = Json.null
    · subst hb; rw [processResponse_null] at h; cases h
    · cases hv : body.getField "questions" with
      | none =>
        rw [processResponse_invalid hb (by simp [questionsIsArray, hv])] at h
        cases h
      | some v =>
        cases v with
        | arr elems =>
          rw [processResponse_questions_arr hv, mapM_eq_mapM'] at h
          exact mapM'_ok_mem (fun j q hq => mapQuestion_ok_fields hq) elems qs h
        | null =>
          rw [processResponse_invalid hb (by simp [questionsIsArray, hv])] at h; cases h
        | bool b =>
          rw [processResponse_invalid hb (by simp [questionsIsArray, hv])] at h; cases h
        | num n =>
          rw [processResponse_invalid hb (by simp [questionsIsArray, hv])] at h; cases h
        | str s =>
          rw [processResponse_invalid hb (by simp [questionsIsArray, hv])] at h; cases h
        | obj fs =>
          rw [processResponse_invalid hb (by simp [questionsIsArray, hv])] at h; cases h

theorem tryAttempt_ok {questionType : String} {c : CallResult} {qs : List QuizQuestion}
    (h : tryAttempt questionType c = Except.ok qs) :
    ∃ out, c = CallResult.success out ∧
      processResponse questionType out = Except.ok qs := by
  cases c with
  | failure m => simp only [tryAttempt] at h; cases h
  | success out =>
    refine ⟨out, rfl, ?_⟩
    simp only [tryAttempt] at h
    cases hp : processResponse questionType out with
    | error e => rw [hp] at h; cases h
    | ok l => rw [hp] at h; cases h; rfl

theorem generateQuiz_noKey {env : EnvVars} {m : String}
    (h : getApiKey env = Except.error m) (pdfText : String) (numQuestions : Nat)
    (difficulty questionType examContext : String) (net : String → String → CallResult) :
    generateQuiz env pdfText numQuestions difficulty questionType examContext net =
      Except.error m := by
  simp only [generateQuiz, h]

theorem generateQuiz_primary_ok {env : EnvVars} {key : String}
    {pdfText : String} {numQuestions : Nat} {difficulty questionType examContext : String}
    {net : String → String → CallResult} {qs : List QuizQuestion}
    (henv : getApiKey env = Except.ok key)
    (h1 : tryAttempt questionType
        (net primaryModel (buildPrompt pdfText numQuestions difficulty questionType examContext)) =
      Except.ok qs) :
    generateQuiz env pdfText numQuestions difficulty questionType examContext net =
      Except.ok qs := by
  simp only [generateQuiz, henv, h1]

theorem generateQuiz_fallback_ok {env : EnvVars} {key : String}
    {pdfText : String} {numQuestions : Nat} {difficulty questionType examContext : String}
    {net : String → String → CallResult} {e1 : Option String} {qs : List QuizQuestion}
    (henv : getApiKey env = Except.ok key)
    (h1 : tryAttempt questionType
        (net primaryModel (buildPrompt pdfText numQuestions difficulty questionType examContext)) =
      Except.error e1)
    (h2 : tryAttempt questionType
        (net secondaryModel (buildPrompt pdfText numQuestions difficulty questionType examContext)) =
      Except.ok qs) :
    generateQuiz env pdfText numQuestions difficulty questionType examContext net =
      Except.ok qs := by
  simp only [generateQuiz, henv, h1, h2]

theorem generateQuiz_both_fail_eq {env : EnvVars} {key : String}
    {pdfText : String} {numQuestions : Nat} {difficulty questionType examContext : String}
    {net : String → String → CallResult} {e1 e2 : Option String}
    (henv : getApiKey env = Except.ok key)
    (h1 : tryAttempt questionType
        (net primaryModel (buildPrompt pdfText numQuestions difficulty questionType examContext)) =
      Except.error e1)
    (h2 : tryAttempt questionType
        (net secondaryModel (buildPrompt pdfText numQuestions difficulty questionType examContext)) =
      Except.error e2) :
    generateQuiz env pdfText numQuestions difficulty questionType examContext net =
      Except.error (genFailureMsg e2 e1) := by
  simp only [generateQuiz, henv, h1, h2]

theorem generateQuiz_ok_cases {env : EnvVars}
    {pdfText : String} {numQuestions : Nat} {difficulty questionType examContext : String}
    {net : String → String → CallResult} {qs : List QuizQuestion}
    (h : generateQuiz env pdfText numQuestions difficulty questionType examContext net =
      Except.ok qs) :
    tryAttempt questionType
        (net primaryModel (buildPrompt pdfText numQuestions difficulty questionType examContext)) =
      Except.ok qs ∨
    tryAttempt questionType
        (net secondaryModel (buildPrompt pdfText numQuestions difficulty questionType examContext)) =
      Except.ok qs := by
  cases hk : getApiKey env with
  | error m => rw [generateQuiz_noKey hk] at h; cases h
  | ok key =>
    cases h1 : tryAttempt questionType
        (net primaryModel (buildPrompt pdfText numQuestions difficulty questionType examContext)) with
    | ok qs1 =>
      rw [generateQuiz_primary_ok hk h1] at h
      cases h
      exact Or.inl rfl
    | error e1 =>
      cases h2 : tryAttempt questionType
          (net secondaryModel (buildPrompt pdfText numQuestions difficulty questionType examContext)) with
      | ok qs2 =>
        rw [generateQuiz_fallback_ok hk h1 h2] at h
        cases h
        exact Or.inr rfl
      | error e2 => rw [generateQuiz_both_fail_eq hk h1 h2] at h; cases h

theorem generateQuiz_ok_mem {env : EnvVars}
    {pdfText : String} {numQuestions : Nat} {difficulty questionType examContext : String}
    {net : String → String → CallResult} {qs : List QuizQuestion}
    (h : generateQuiz env pdfText numQuestions difficulty questionType examContext net =
      Except.ok qs) :
    ∀ q ∈ qs, q.type = questionType ∧ q.marks = getMarksForType questionType := by
  cases generateQuiz_ok_cases h with
  | inl h1 =>
    obtain ⟨out, -, hpr⟩ := tryAttempt_ok h1
    exact processResponse_ok_mem hpr
  | inr h2 =>
    obtain ⟨out, -, hpr⟩ := tryAttempt_ok h2
    exact processResponse_ok_mem hpr

theorem string_append_ne_empty_left {s : String} (hs : s.data ≠ []) (t : String) :
    s ++ t ≠ "" := by
  intro hEq
  have h2 : s.data ++ t.data = [] := congrArg String.data hEq
  exact hs (List.append_eq_nil.mp h2).1

theorem genFailureMsg_ne_empty (r p : Option String) : genFailureMsg r p ≠ "" := by
  unfold genFailureMsg
  apply string_append_ne_empty_left
  have h2 : ("AI Generation Failed: " ++ jsMsgOr r p).data =
      "AI Generation Failed: ".data ++ (jsMsgOr r p).data := rfl
  rw [h2]
  intro h3
  exact absurd (List.append_eq_nil.mp h3).1 (by decide)

/-- C1: for every question kind in the fixed enumeration, every record the
generation operation returns carries the requested kind as its `type`,
whatever `type` the raw response element echoed (the `.map` callback
overwrites it with the request's `questionType` unconditionally). -/
theorem generateQuiz_kind_matches_request {env : EnvVars} {pdfText : String}
    {numQuestions : Nat} {difficulty questionType examContext : String}
    {net : String → String → CallResult} {qs : List QuizQuestion}
    (hkind : questionType ∈ questionKinds)
    (h : generateQuiz env pdfText numQuestions difficulty questionType examContext net =
      Except.ok qs) :
    ∀ q ∈ qs, q.type = questionType :=
  fun q hq => (generateQuiz_ok_mem h q hq).1

/-- Witness for C1: the requested kind is MCQ, the response element claims
kind Long, and the returned record's `type` is MCQ. -/
theorem generateQuiz_kind_matches_request_witness :
    ("MCQ" ∈ questionKinds ∧
      generateQuiz wEnv "text" 1 "Easy" "MCQ" "" wNetEcho = Except.ok [wQuestionOut]) ∧
    ∀ q ∈ [wQuestionOut], q.type = "MCQ" :=
  ⟨⟨by decide, rfl⟩,
   @generateQuiz_kind_matches_request wEnv "text" 1 "Easy" "MCQ" "" wNetEcho
     [wQuestionOut] (by decide) rfl⟩

/-- C2: every returned record's `marks` is the client-side lookup of the
requested kind (so marks never come from the model response), and the lookup
table reads MCQ 1, FillBlanks 1, VeryShort 2, Short 3, CaseBased 4,
ExtractBased 4, Long 5, and 1 for every other string. -/
theorem generateQuiz_marks_from_lookup {env : EnvVars} {pdfText : String}
    {numQuestions : Nat} {difficulty questionType examContext : String}
    {net : String → String → CallResult} {qs : List QuizQuestion}
    (h : generateQuiz env pdfText numQuestions difficulty questionType examContext net =
      Except.ok qs) :
    (∀ q ∈ qs, q.marks = getMarksForType questionType) ∧
    getMarksForType "MCQ" = 1 ∧ getMarksForType "FillBlanks" = 1 ∧
    getMarksForType "VeryShort" = 2 ∧ getMarksForType "Short" = 3 ∧
    getMarksForType "CaseBased" = 4 ∧ getMarksForType "ExtractBased" = 4 ∧
    getMarksForType "Long" = 5 ∧
    ∀ t, t ∉ ["MCQ", "FillBlanks", "VeryShort", "Short", "CaseBased", "ExtractBased", "Long"] →
      getMarksForType t = 1 := by
  refine ⟨fun q hq => (generateQuiz_ok_mem h q hq).2,
    by decide, by decide, by decide, by decide, by decide, by decide, by decide, ?_⟩
  intro t ht
  simp only [List.mem_cons, List.not_mem_nil, or_false, not_or] at ht
  obtain ⟨h1, h2, h3, h4, h5, h6, h7⟩ := ht
  simp [getMarksForType, h1, h2, h3, h4, h5, h6, h7]

/-- Witness for C2: a successful MCQ generation whose record carries the
looked-up 1 mark. -/
theorem generateQuiz_marks_from_lookup_witness :
    generateQuiz wEnv "text" 1 "Easy" "MCQ" "" wNetEcho = Except.ok [wQuestionOut] ∧
    ∀ q ∈ [wQuestionOut], q.marks = getMarksForType "MCQ" :=
  ⟨rfl, (@generateQuiz_marks_from_lookup wEnv "text" 1 "Easy" "MCQ" "" wNetEcho
    [wQuestionOut] rfl).1⟩

/-- C3: when the primary attempt throws (for any reason) and the secondary
attempt at the identical prompt succeeds with a valid response, the
operation returns the secondary's validated list and no error reaches the
caller.  Both hypotheses mention the same `buildPrompt` value: the secondary
call receives the identical, unmodified request. -/
theorem generateQuiz_fallback_transparent {env : EnvVars} {key : String}
    {pdfText : String} {numQuestions : Nat} {difficulty questionType examContext : String}
    {net : String → String → CallResult} {e1 : Option String} {qs : List QuizQuestion}
    (henv : getApiKey env = Except.ok key)
    (h1 : tryAttempt questionType
        (net primaryModel (buildPrompt pdfText numQuestions difficulty questionType examContext)) =
      Except.error e1)
    (h2 : tryAttempt questionType
        (net secondaryModel (buildPrompt pdfText numQuestions difficulty questionType examContext)) =
      Except.ok qs) :
    generateQuiz env pdfText numQuestions difficulty questionType examContext net =
      Except.ok qs :=
  generateQuiz_fallback_ok henv h1 h2

/-- Witness for C3: the primary call throws and the secondary call's valid
response is returned transparently. -/
theorem generateQuiz_fallback_transparent_witness :
    generateQuiz wEnv "text" 1 "Easy" "MCQ" "" wNetPrimaryFails =
      Except.ok [wQuestionOut] :=
  @generateQuiz_fallback_transparent wEnv "key" "text" 1 "Easy" "MCQ" "" wNetPrimaryFails
    (some "boom") [wQuestionOut] rfl rfl rfl

/-- C4: when both attempts fail, the operation fails with the generation
error; its message is never empty, uses the secondary attempt's message when
one is present and non-empty (JavaScript truthiness of `.message`), and
falls back to the primary attempt's message otherwise.  The final conjunct
states that the outcome depends on nothing beyond those two calls: there is
no third attempt. -/
theorem generateQuiz_both_fail_generation_error {env : EnvVars} {key : String}
    {pdfText : String} {numQuestions : Nat} {difficulty questionType examContext : String}
    {net : String → String → CallResult} {e1 e2 : Option String}
    (henv : getApiKey env = Except.ok key)
    (h1 : tryAttempt questionType
        (net primaryModel (buildPrompt pdfText numQuestions difficulty questionType examContext)) =
      Except.error e1)
    (h2 : tryAttempt questionType
        (net secondaryModel (buildPrompt pdfText numQuestions difficulty questionType examContext)) =
      Except.error e2) :
    generateQuiz env pdfText numQuestions difficulty questionType examContext net =
      Except.error (genFailureMsg e2 e1) ∧
    genFailureMsg e2 e1 ≠ "" ∧
    (∀ s, e2 = some s → s ≠ "" →
      genFailureMsg e2 e1 = "AI Generation Failed: " ++ s ++ ". Please check your API Key and Quota.") ∧
    ((e2 = none ∨ e2 = some "") → ∀ s, e1 = some s → s ≠ "" →
      genFailureMsg e2 e1 = "AI Generation Failed: " ++ s ++ ". Please check your API Key and Quota.") ∧
    (∀ net2 : String → String → CallResult,
      net2 primaryModel (buildPrompt pdfText numQuestions difficulty questionType examContext) =
        net primaryModel (buildPrompt pdfText numQuestions difficulty questionType examContext) →
      net2 secondaryModel (buildPrompt pdfText numQuestions difficulty questionType examContext) =
        net secondaryModel (buildPrompt pdfText numQuestions difficulty questionType examContext) →
      generateQuiz env pdfText numQuestions difficulty questionType examContext net2 =
        generateQuiz env pdfText numQuestions difficulty questionType examContext net) := by
  refine ⟨generateQuiz_both_fail_eq henv h1 h2, genFailureMsg_ne_empty e2 e1, ?_, ?_, ?_⟩
  · intro s hs hne
    subst hs
    simp [genFailureMsg, jsMsgOr, hne]
  · intro hcase s hs hne
    subst hs
    rcases hcase with hc | hc <;> subst hc <;> simp [genFailureMsg, jsMsgOr, hne]
  · intro net2 hA hB
    simp only [generateQuiz, henv, hA, hB]

/-- Witness for C4: both calls throw and the operation fails with the
non-empty combined message built from the secondary attempt's message. -/
theorem generateQuiz_both_fail_generation_error_witness :
    generateQuiz wEnv "text" 1 "Easy" "MCQ" "" wNetBothFail =
      Except.error (genFailureMsg (some "secondary down") (some "primary down")) ∧
    genFailureMsg (some "secondary down") (some "primary down") ≠ "" :=
  ⟨(@generateQuiz_both_fail_generation_error wEnv "key" "text" 1 "Easy" "MCQ" ""
      wNetBothFail (some "primary down") (some "secondary down") rfl rfl rfl).1,
   (@generateQuiz_both_fail_generation_error wEnv "key" "text" 1 "Easy" "MCQ" ""
      wNetBothFail (some "primary down") (some "secondary down") rfl rfl rfl).2.1⟩

/-- C7: the prompt embeds exactly `pdfText.substring(0, 30000)` between the
fixed template parts; that slice never exceeds 30,000 characters, is a
prefix of the source text, and equals the whole source text whenever it is
at most 30,000 characters long. -/
theorem buildPrompt_truncates_sourceText (pdfText : String) (numQuestions : Nat)
    (difficulty questionType examContext : String) :
    buildPrompt pdfText numQuestions difficulty questionType examContext =
      promptBeforeText numQuestions difficulty questionType examContext ++
        jsSubstring pdfText 30000 ++ promptAfterText ∧
    (jsSubstring pdfText 30000).data.length ≤ 30000 ∧
    (jsSubstring pdfText 30000).data <+: pdfText.data ∧
    (pdfText.data.length ≤ 30000 → jsSubstring pdfText 30000 = pdfText) := by
  refine ⟨rfl, ?_, ?_, ?_⟩
  · show (pdfText.data.take 30000).length ≤ 30000
    rw [List.length_take]
    exact Nat.min_le_left _ _
  · exact List.take_prefix 30000 pdfText.data
  · intro hle
    show String.mk (pdfText.data.take 30000) = pdfText
    rw [List.take_of_length_le hle]

/-- Witness for C7: a short source text is embedded unchanged. -/
theorem buildPrompt_truncates_sourceText_witness :
    jsSubstring "short text" 30000 = "short text" :=
  (buildPrompt_truncates_sourceText "short text" 1 "Easy" "MCQ" "").2.2.2 (by decide)

/-- C9: with no credential available on either environment lookup path, both
entry points fail with the configuration error, and the outcome is the same
for every network oracle: no network call can influence (or be required for)
the result, i.e. the operations fail before any call is attempted. -/
theorem missing_credential_fails_before_network {env : EnvVars}
    (h1 : envTruthy env.apiKey = false) (h2 : envTruthy env.viteApiKey = false) :
    (∀ (pdfText : String) (numQuestions : Nat)
        (difficulty questionType examContext : String)
        (net : String → String → CallResult),
      generateQuiz env pdfText numQuestions difficulty questionType examContext net =
        Except.error apiKeyMissingMsg) ∧
    (∀ (question modelAnswer imageBase64 mimeType : String) (maxMarks : Int)
        (net : EvalRequest → CallResult),
      evaluateAnswer env question modelAnswer imageBase64 mimeType maxMarks net =
        Except.error apiKeyMissingMsg) := by
  have hk : getApiKey env = Except.error apiKeyMissingMsg := by
    simp [getApiKey, h1, h2]
  constructor
  · intro pdfText numQuestions difficulty questionType examContext net
    exact generateQuiz_noKey hk pdfText numQuestions difficulty questionType examContext net
  · intro question modelAnswer imageBase64 mimeType maxMarks net
    simp only [evaluateAnswer, hk]

/-- Witness for C9: with `API_KEY` unset and `VITE_API_KEY` empty, both
operations fail with the configuration error under an arbitrary oracle. -/
theorem missing_credential_fails_before_network_witness :
    generateQuiz ⟨none, some ""⟩ "text" 1 "Easy" "MCQ" "" wNetEcho =
      Except.error apiKeyMissingMsg ∧
    evaluateAnswer ⟨none, some ""⟩ "Q" "MA" "IMG" "image/jpeg" 5
        (fun _ => CallResult.failure none) =
      Except.error apiKeyMissingMsg :=
  ⟨(@missing_credential_fails_before_network ⟨none, some ""⟩ rfl rfl).1
      "text" 1 "Easy" "MCQ" "" wNetEcho,
   (@missing_credential_fails_before_network ⟨none, some ""⟩ rfl rfl).2
      "Q" "MA" "IMG" "image/jpeg" 5 (fun _ => CallResult.failure none)⟩

/-- Counterexample to C5 as stated: a response that parses but misses the
required `feedback` field is returned as a success, not rejected with an
evaluation error (`JSON.parse(...) as EvaluationResult` does not validate
fields at runtime). -/
theorem evaluateAnswer_no_field_validation_counterexample :
    evaluateAnswer wEnv "Q" "MA" "IMG" "image/jpeg" 5
        (fun _ => CallResult.success (ParseOutcome.parsed wEvalBodyMissing)) =
      Except.ok wEvalBodyMissing ∧
    hasRequiredEvalFields wEvalBodyMissing = false :=
  ⟨rfl, rfl⟩

/-- C5 (amended): a thrown SDK error or a parse failure of the model
response fails the operation with the evaluation error, whose text includes
the underlying message whenever that message is non-empty (a default hint
otherwise); but a response that parses as JSON is returned as-is with no
check of the required fields. -/
theorem evaluateAnswer_error_and_passthrough {env : EnvVars} {key : String}
    {question modelAnswer imageBase64 mimeType : String} {maxMarks : Int}
    {net : EvalRequest → CallResult}
    (henv : getApiKey env = Except.ok key) :
    (∀ m, net (evalRequest question modelAnswer imageBase64 mimeType maxMarks) =
        CallResult.failure m →
      evaluateAnswer env question modelAnswer imageBase64 mimeType maxMarks net =
        Except.error (evalFailureMsg m)) ∧
    (∀ m, net (evalRequest question modelAnswer imageBase64 mimeType maxMarks) =
        CallResult.success (ParseOutcome.malformed m) →
      evaluateAnswer env question modelAnswer imageBase64 mimeType maxMarks net =
        Except.error (evalFailureMsg (some m)) ∧
      (m ≠ "" → evalFailureMsg (some m) = "Evaluation failed: " ++ m)) ∧
    (∀ body, net (evalRequest question modelAnswer imageBase64 mimeType maxMarks) =
        CallResult.success (ParseOutcome.parsed body) →
      evaluateAnswer env question modelAnswer imageBase64 mimeType maxMarks net =
        Except.ok body) := by
  refine ⟨?_, ?_, ?_⟩
  · intro m hm
    simp only [evaluateAnswer, henv, hm]
  · intro m hm
    refine ⟨by simp only [evaluateAnswer, henv, hm], fun hne => ?_⟩
    simp [evalFailureMsg, hne]
  · intro body hb
    simp only [evaluateAnswer, henv, hb]

/-- Witness for C5 (amended): a parse failure surfaces as the evaluation
error carrying the parser's message. -/
theorem evaluateAnswer_error_and_passthrough_witness :
    evaluateAnswer wEnv "Q" "MA" "IMG" "image/jpeg" 5
        (fun _ => CallResult.success (ParseOutcome.malformed "Unexpected token")) =
      Except.error (evalFailureMsg (some "Unexpected token")) :=
  ((@evaluateAnswer_error_and_passthrough wEnv "key" "Q" "MA" "IMG" "image/jpeg" 5
      (fun _ => CallResult.success (ParseOutcome.malformed "Unexpected token")) rfl).2.1
    "Unexpected token" rfl).1

/-- Counterexample to C6 as stated: called with positive `maxMarks` 5, a
response reporting `score` 7 is propagated unchanged to the caller. -/
theorem evaluateAnswer_score_overflow_counterexample :
    evaluateAnswer wEnv "Q" "MA" "IMG" "image/jpeg" 5
        (fun _ => CallResult.success (ParseOutcome.parsed wEvalBodyOver)) =
      Except.ok wEvalBodyOver ∧
    wEvalBodyOver.getField "score" = some (Json.num 7) ∧
    wEvalBodyOver.getField "maxMarks" = some (Json.num 5) ∧
    (5 : Int) < 7 ∧ (0 : Int) < 5 :=
  ⟨rfl, rfl, rfl, by decide, by decide⟩

/-- C6 (amended): with positive `maxMarks`, the operation returns the parsed
response body unchanged — no clamping or rejection of an out-of-range score
ever happens. -/
theorem evaluateAnswer_propagates_unclamped {env : EnvVars} {key : String}
    {question modelAnswer imageBase64 mimeType : String} {maxMarks : Int}
    {net : EvalRequest → CallResult} {body : Json}
    (henv : getApiKey env = Except.ok key) (hpos : 0 < maxMarks)
    (hnet : net (evalRequest question modelAnswer imageBase64 mimeType maxMarks) =
      CallResult.success (ParseOutcome.parsed body)) :
    evaluateAnswer env question modelAnswer imageBase64 mimeType maxMarks net =
      Except.ok body := by
  simp only [evaluateAnswer, henv, hnet]

/-- Witness for C6 (amended): the over-range body of the counterexample is
indeed what the operation returns. -/
theorem evaluateAnswer_propagates_unclamped_witness :
    evaluateAnswer wEnv "Q" "MA" "IMG" "image/jpeg" 5
        (fun _ => CallResult.success (ParseOutcome.parsed wEvalBodyOver)) =
      Except.ok wEvalBodyOver :=
  @evaluateAnswer_propagates_unclamped wEnv "key" "Q" "MA" "IMG" "image/jpeg" 5
    (fun _ => CallResult.success (ParseOutcome.parsed wEvalBodyOver)) wEvalBodyOver
    rfl (by decide) rfl

/-- Counterexample to C8 as stated: a body that parses to JSON `null` has no
`questions` sequence, yet validating it fails with a TypeError (the property
access on `null`), not with the "Invalid response format" generation
error. -/
theorem processResponse_null_body_counterexample :
    processResponse "MCQ" (ParseOutcome.parsed Json.null) =
      Except.error "Cannot read properties of null (reading 'questions')" ∧
    "Cannot read properties of null (reading 'questions')" ≠ invalidFormatMsg :=
  ⟨rfl, by decide⟩

/-- C8 (amended): every parsed body other than JSON `null` that lacks a
`questions` field holding a sequence fails validation with the
"Invalid response format" generation error — the check does not depend on
which model produced the response; when both models return such (non-null)
shapes, the whole operation fails carrying that diagnostic; a body of JSON
`null` instead fails its attempt with a TypeError. -/
theorem invalid_shape_generation_error {questionType : String} :
    (∀ body : Json, body ≠ Json.null → questionsIsArray body = false →
      processResponse questionType (ParseOutcome.parsed body) =
        Except.error invalidFormatMsg) ∧
    (∀ (env : EnvVars) (key pdfText : String) (numQuestions : Nat)
        (difficulty examContext : String) (net : String → String → CallResult)
        (body1 body2 : Json),
      getApiKey env = Except.ok key →
      net primaryModel (buildPrompt pdfText numQuestions difficulty questionType examContext) =
        CallResult.success (ParseOutcome.parsed body1) →
      net secondaryModel (buildPrompt pdfText numQuestions difficulty questionType examContext) =
        CallResult.success (ParseOutcome.parsed body2) →
      body1 ≠ Json.null → body2 ≠ Json.null →
      questionsIsArray body1 = false → questionsIsArray body2 = false →
      generateQuiz env pdfText numQuestions difficulty questionType examContext net =
        Except.error ("AI Generation Failed: " ++ invalidFormatMsg ++
          ". Please check your API Key and Quota.")) ∧
    processResponse questionType (ParseOutcome.parsed Json.null) =
      Except.error "Cannot read properties of null (reading 'questions')" := by
  refine ⟨fun body hb hq => processResponse_invalid hb hq, ?_, rfl⟩
  intro env key pdfText numQuestions difficulty examContext net body1 body2
    henv hnet1 hnet2 hb1 hb2 hq1 hq2
  have t1 : tryAttempt questionType
      (net primaryModel (buildPrompt pdfText numQuestions difficulty questionType examContext)) =
      Except.error (some invalidFormatMsg) := by
    rw [hnet1]
    simp only [tryAttempt, processResponse_invalid hb1 hq1]
    rfl
  have t2 : tryAttempt questionType
      (net secondaryModel (buildPrompt pdfText numQuestions difficulty questionType examContext)) =
      Except.error (some invalidFormatMsg) := by
    rw [hnet2]
    simp only [tryAttempt, processResponse_invalid hb2 hq2]
    rfl
  rw [generateQuiz_both_fail_eq henv t1 t2]
  have hmsg : genFailureMsg (some invalidFormatMsg) (some invalidFormatMsg) =
      "AI Generation Failed: " ++ invalidFormatMsg ++
        ". Please check your API Key and Quota." := by decide
  rw [hmsg]

/-- Witness for C8 (amended): both models return a body with no `questions`
field and the operation fails carrying the format diagnostic. -/
theorem invalid_shape_generation_error_witness :
    generateQuiz wEnv "text" 1 "Easy" "MCQ" "" wNetNoQuestions =
      Except.error ("AI Generation Failed: " ++ invalidFormatMsg ++
        ". Please check your API Key and Quota.") :=
  invalid_shape_generation_error.2.1 wEnv "key" "text" 1 "Easy" "" wNetNoQuestions
    (Json.obj []) (Json.obj []) rfl rfl rfl
    (fun h => Json.noConfusion h) (fun h => Json.noConfusion h) rfl rfl

/-- Counterexample to C10 as stated: a response whose `questions` array has
exactly one element — JSON `null` — does not yield a one-element result: the
mapping's property access throws, both attempts fail, and the operation
fails instead of returning a list. -/
theorem generateQuiz_null_element_counterexample :
    generateQuiz wEnv "text" 1 "Easy" "MCQ" "" wNetNullElem =
      Except.error ("AI Generation Failed: Cannot read properties of null (reading 'question')" ++
        ". Please check your API Key and Quota.") := rfl

/-- C10 (amended): for a response whose `questions` array has no `null`
element, the operation returns exactly one record per array element, in
order (the map of the element-wise translation), for every requested
question count — the output length is the array's length and is never
compared with `numQuestions`; in particular an empty array yields an empty
result without error. -/
theorem generateQuiz_one_spec_per_element {env : EnvVars} {key : String}
    {pdfText : String} {numQuestions : Nat} {difficulty questionType examContext : String}
    {net : String → String → CallResult} {body : Json} {xs : List Json}
    (henv : getApiKey env = Except.ok key)
    (hq : body.getField "questions" = some (Json.arr xs))
    (hnn : ∀ x ∈ xs, x ≠ Json.null)
    (hnet : net primaryModel (buildPrompt pdfText numQuestions difficulty questionType examContext) =
      CallResult.success (ParseOutcome.parsed body)) :
    generateQuiz env pdfText numQuestions difficulty questionType examContext net =
      Except.ok (xs.map (mapQuestionTotal questionType)) ∧
    (xs.map (mapQuestionTotal questionType)).length = xs.length := by
  have hp : processResponse questionType (ParseOutcome.parsed body) =
      Except.ok (xs.map (mapQuestionTotal questionType)) := by
    rw [processResponse_questions_arr hq, mapM_eq_mapM']
    exact mapM'_map_of_ne_null xs hnn
  have t1 : tryAttempt questionType
      (net primaryModel (buildPrompt pdfText numQuestions difficulty questionType examContext)) =
      Except.ok (xs.map (mapQuestionTotal questionType)) := by
    rw [hnet]
    simp only [tryAttempt, hp]
    rfl
  exact ⟨generateQuiz_primary_ok henv t1, List.length_map xs (mapQuestionTotal questionType)⟩

/-- Witness for C10 (amended): an empty `questions` array yields the empty
result without error (and its length is the array's length). -/
theorem generateQuiz_one_spec_per_element_witness :
    generateQuiz wEnv "text" 1 "Easy" "MCQ" "" wNetEmptyQuestions =
      Except.ok (List.map (mapQuestionTotal "MCQ") []) ∧
    (List.map (mapQuestionTotal "MCQ") []).length = ([] : List Json).length :=
  @generateQuiz_one_spec_per_element wEnv "key" "text" 1 "Easy" "MCQ" ""
    wNetEmptyQuestions (Json.obj [("questions", Json.arr [])]) [] rfl rfl
    (fun x hx => absurd hx (List.not_mem_nil x)) rfl

end SparkGo
